import Mathlib

/-!
Verification development for the LightRAG context pipeline of the
akii-mcp-server repository.

The definitions below are a shallow embedding of the TypeScript sources:
  - src/modules/lightrag/context-builder.ts  (ContextBuilder)
  - src/modules/lightrag/embedder.ts         (createEmbeddingProvider, BedrockEmbedder)
  - src/context/providers/lightrag.ts        (LightRAGContextProvider.getContext,
                                              summarizeWebResults, BraveSearchProvider)

Modelling conventions:
  - JavaScript strings are Lean String (lengths counted in characters);
    Math.ceil(n / 4) on a string length is (n + 3) / 4 in Nat.
  - JavaScript numbers that carry scores/thresholds are Rat.
  - metadata (a Record<string, any>) is an association list of string keys to
    the string rendering of the value, which is all the pipeline ever uses.
  - fallible external calls (fetch, supabase RPC, model router) are passed in
    as Except String values: .error models the awaited promise rejecting.
-/

namespace LightRag

/-- Model of the Document interface of src/modules/lightrag/index.ts.
metadata is optional in the source; score is optional. The embedding field is
never consulted by the context builder or the orchestrator, so it is omitted
from the record (it would be dead weight in every theorem). -/
structure Document where
  id : Option String := none
  content : String
  metadata : Option (List (String × String)) := none
  score : Option ℚ := none
  deriving DecidableEq, Repr

/-- Model of the ContextResult interface of src/modules/lightrag/index.ts. -/
structure ContextResult where
  context : String
  sources : List Document
  tokenCount : Nat
  deriving DecidableEq, Repr

/-- Model of ContextBuilderOptions: every field is optional in the source;
a missing field means the property is absent from the options object. -/
structure ContextBuilderOptions where
  maxContextLength : Option Nat := none
  formatAsJson : Option Bool := none
  includeMetadata : Option Bool := none
  separator : Option String := none
  deduplicate : Option Bool := none
  deriving DecidableEq, Repr

/-- The options after the merge at the top of buildContext:
mergedOptions = spread of defaultOptions then the caller's options. -/
structure MergedOptions where
  maxContextLength : Nat
  formatAsJson : Bool
  includeMetadata : Bool
  separator : String
  deduplicate : Bool
  deriving DecidableEq, Repr

/-- Merge of this.defaultOptions with the caller options, mirroring
mergedOptions in ContextBuilder.buildContext (defaults: 4000, false, true,
two newlines, true). -/
def mergeOptions (o : ContextBuilderOptions) : MergedOptions where
  maxContextLength := o.maxContextLength.getD 4000
  formatAsJson := o.formatAsJson.getD false
  includeMetadata := o.includeMetadata.getD true
  separator := o.separator.getD "\n\n"
  deduplicate := o.deduplicate.getD true

/-- Model of ContextBuilder.estimateTokens: Math.ceil(text.length / 4). -/
def estimateTokens (text : String) : Nat :=
  (text.length + 3) / 4

/-- The content fingerprint used by deduplicateDocuments:
doc.content.substring(0, 100), computed characterwise. -/
def fingerprint (d : Document) : String :=
  ⟨d.content.data.take 100⟩

/-- Recursion of ContextBuilder.deduplicateDocuments: walk the list keeping a
set (here: list) of fingerprints already seen; a document whose fingerprint
was seen before is dropped, otherwise it is kept and its fingerprint added. -/
def dedupeGo (seen : List String) : List Document → List Document
  | [] => []
  | d :: rest =>
    if fingerprint d ∈ seen then dedupeGo seen rest
    else d :: dedupeGo (fingerprint d :: seen) rest

/-- Model of ContextBuilder.deduplicateDocuments. -/
def deduplicateDocuments (documents : List Document) : List Document :=
  dedupeGo [] documents

/-- The score used by the sort comparator: doc.score || 0. -/
def scoreVal (d : Document) : ℚ :=
  d.score.getD 0

/-- Stable insertion of a document into a list sorted by score descending:
the incoming (earlier-in-input) document goes before any document with score
less than or equal to its own. -/
def insertByScore (a : Document) : List Document → List Document
  | [] => [a]
  | b :: l => if scoreVal b ≤ scoreVal a then a :: b :: l else b :: insertByScore a l

/-- Model of the sort in buildContext: [...docs].sort((a, b) =>
(b.score || 0) - (a.score || 0)), i.e. a stable sort by score descending
(Array.prototype.sort is stable). -/
def sortByScoreDesc : List Document → List Document
  | [] => []
  | a :: l => insertByScore a (sortByScoreDesc l)

/-- One hexadecimal digit, used by the JSON string escaper. -/
def hexDigit (n : Nat) : String :=
  if n < 10 then toString n
  else if n = 10 then "a" else if n = 11 then "b" else if n = 12 then "c"
  else if n = 13 then "d" else if n = 14 then "e" else "f"

/-- JSON string escaping as performed by JSON.stringify on the characters
that can occur here: backslash, double quote, and control characters. -/
def jsonEscape (s : String) : String :=
  s.foldl (fun acc c =>
    acc ++ (if c = '\\' then "\\\\"
      else if c = '"' then "\\\""
      else if c = '\n' then "\\n"
      else if c = '\r' then "\\r"
      else if c = '\t' then "\\t"
      else if c.toNat < 32 then
        "\\u00" ++ hexDigit (c.toNat / 16) ++ hexDigit (c.toNat % 16)
      else String.singleton c)) ""

/-- A JSON string literal. -/
def jsonQuote (s : String) : String :=
  "\"" ++ jsonEscape s ++ "\""

/-- JSON.stringify rendering (indent 2) of a metadata record at indentation
ind; metadata values are modelled as strings. -/
def jsonMetaObj (ind : String) (m : List (String × String)) : String :=
  match m with
  | [] => "\x7b\x7d"
  | _ => "\x7b\n"
      ++ String.intercalate ",\n"
          (m.map fun kv => ind ++ "  " ++ jsonQuote kv.1 ++ ": " ++ jsonQuote kv.2)
      ++ "\n" ++ ind ++ "\x7d"

/-- JSON.stringify rendering (indent 2) of one element of contextArray in the
formatAsJson branch of buildContext: an object with a content field and,
when includeMetadata is set and the document has metadata, a metadata field
(JSON.stringify drops the field when doc.metadata is undefined). -/
def jsonDocObj (ind : String) (includeMetadata : Bool) (d : Document) : String :=
  let fields : List (String × String) :=
    [("content", jsonQuote d.content)]
      ++ (match includeMetadata, d.metadata with
          | true, some m => [("metadata", jsonMetaObj (ind ++ "  ") m)]
          | _, _ => [])
  "\x7b\n"
    ++ String.intercalate ",\n"
        (fields.map fun kv => ind ++ "  " ++ jsonQuote kv.1 ++ ": " ++ kv.2)
    ++ "\n" ++ ind ++ "\x7d"

/-- JSON.stringify(contextArray, null, 2): the empty array renders as a bare
bracket pair, a non-empty array as an indented block. -/
def jsonStringifyDocs (includeMetadata : Bool) (docs : List Document) : String :=
  match docs with
  | [] => "[]"
  | _ => "[\n"
      ++ String.intercalate ",\n" (docs.map fun d => "  " ++ jsonDocObj "  " includeMetadata d)
      ++ "\n]"

/-- The flattened metadata line of the plain-text branch:
Object.entries(doc.metadata || empty).map(([k, v]) => k + ": " + v).join(", "). -/
def metadataStr (d : Document) : String :=
  String.intercalate ", " ((d.metadata.getD []).map fun kv => kv.1 ++ ": " ++ kv.2)

/-- Accumulator of the plain-text loop of buildContext: the context string,
the pushed source documents, and the running token count. -/
structure BuildAcc where
  context : String
  sources : List Document
  tokenCount : Nat
  deriving DecidableEq, Repr

/-- One iteration of the plain-text loop of buildContext: append the
separator when context is non-empty (JS truthiness of the string), then the
bracketed metadata line when requested and non-empty, then the document
content; push the document and add its token estimate. -/
def textStep (opts : MergedOptions) (acc : BuildAcc) (doc : Document) : BuildAcc :=
  let ctx1 := if acc.context = "" then acc.context else acc.context ++ opts.separator
  let ctx2 := if opts.includeMetadata ∧ metadataStr doc ≠ "" then
      ctx1 ++ "[" ++ metadataStr doc ++ "]\n"
    else ctx1
  { context := ctx2 ++ doc.content
    sources := acc.sources ++ [doc]
    tokenCount := acc.tokenCount + estimateTokens doc.content }

/-- Model of ContextBuilder.buildContext. Steps exactly as in the source:
optional dedup, sort by score descending, then either the JSON rendering
(whose map pushes every sorted document into sources and adds every token
estimate) or the plain-text fold. maxContextLength is accepted but never
used, as in the source. -/
def buildContext (documents : List Document) (options : ContextBuilderOptions) : ContextResult :=
  let opts := mergeOptions options
  let processedDocuments := if opts.deduplicate then deduplicateDocuments documents else documents
  let sortedDocuments := sortByScoreDesc processedDocuments
  if opts.formatAsJson then
    { context := jsonStringifyDocs opts.includeMetadata sortedDocuments
      sources := sortedDocuments
      tokenCount := (sortedDocuments.map (fun d => estimateTokens d.content)).sum }
  else
    let acc := sortedDocuments.foldl (textStep opts) ⟨"", [], 0⟩
    { context := acc.context, sources := acc.sources, tokenCount := acc.tokenCount }

/-! ### Embedder module (src/modules/lightrag/embedder.ts) -/

/-- JS String.prototype.toLowerCase, computed characterwise over the string
data (the provider names involved are plain ASCII). -/
def jsToLower (s : String) : String :=
  ⟨s.data.map Char.toLower⟩

/-- JavaScript logical-or defaulting for an optional string argument:
an absent value and the empty string are both falsy. -/
def jsOrStr (a : Option String) (b : String) : String :=
  match a with
  | some s => if s = "" then b else s
  | none => b

/-- JavaScript logical-or defaulting for an optional number: absent and 0 are
falsy. -/
def jsOrNat (a : Option Nat) (b : Nat) : Nat :=
  match a with
  | some n => if n = 0 then b else n
  | none => b

/-- Boolean test for a rejected external call. -/
def failed {α : Type} : Except String α → Bool
  | .error _ => true
  | .ok _ => false

/-- Model of the config argument of createEmbeddingProvider; every field of
the TypeScript object is optional. -/
structure ProviderConfig where
  apiKey : Option String := none
  region : Option String := none
  accessKeyId : Option String := none
  secretAccessKey : Option String := none
  trackUsage : Option Bool := none
  deriving DecidableEq, Repr

/-- The backend selected by createEmbeddingProvider. The bedrock variant
records the model id passed to the BedrockEmbedder constructor (its default
applies only when the argument is absent), the resolved region and the
trackUsage flag; the fireworks variant records the resolved model id and the
trackUsage flag. Credential resolution (config value, else process.env, else
the empty string) happens inside the constructors against the ambient
environment and does not influence which backend is selected, so it is not
part of this selection model. -/
inductive EmbeddingBackend where
  | bedrock (modelId : String) (region : String) (trackUsage : Bool)
  | fireworks (modelId : String) (trackUsage : Bool)
  deriving DecidableEq, Repr

/-- Model of createEmbeddingProvider of src/modules/lightrag/embedder.ts.
providerName is provider lowercased, or the string fireworks when that is
empty (JS: provider?.toLowerCase() || 'fireworks'). The switch returns a
BedrockEmbedder for bedrock, a FireworksEmbedder for fireworks, and — in the
default arm — silently falls back to a FireworksEmbedder after a console
warning. There is no failure path in the source. -/
def createEmbeddingProvider (provider : String) (modelId : Option String)
    (config : ProviderConfig) : EmbeddingBackend :=
  let providerName := if jsToLower provider = "" then "fireworks" else jsToLower provider
  if providerName = "bedrock" then
    .bedrock (modelId.getD "amazon.titan-embed-text-v1")
      (jsOrStr config.region "us-east-1")
      (config.trackUsage.getD true)
  else if providerName = "fireworks" then
    .fireworks (jsOrStr modelId "deepseek-v3") (config.trackUsage.getD true)
  else
    .fireworks (jsOrStr modelId "deepseek-v3") (config.trackUsage.getD true)

/-- State of a constructed BedrockEmbedder: model id (constructor default
amazon.titan-embed-text-v1), region (default us-east-1), the resolved AWS
credentials (config value, else environment variable, else empty string) and
the trackUsage flag (default true). -/
structure BedrockEmbedder where
  modelId : String := "amazon.titan-embed-text-v1"
  region : String := "us-east-1"
  accessKeyId : String
  secretAccessKey : String
  trackUsage : Bool := true

/-- Component i of the mock Bedrock embedding vector:
Math.sin(i * 0.01 + seed * 0.1) * 0.5, where seed = text.length. -/
noncomputable def mockEmbeddingComponent (seed i : Nat) : ℝ :=
  Real.sin ((i : ℝ) * (1 / 100) + (seed : ℝ) * (1 / 10)) * (1 / 2)

/-- The full mock embedding: new Array(1536).fill(0).map((unused, i) => ...). -/
noncomputable def mockBedrockEmbedding (seed : Nat) : List ℝ :=
  (List.range 1536).map (mockEmbeddingComponent seed)

/-- An EmbeddingResult as produced by BedrockEmbedder (real-valued vector). -/
structure BedrockEmbeddingResult where
  embedding : List ℝ
  tokenCount : Nat

/-- Model of BedrockEmbedder.generateEmbedding. With missing credentials the
function throws (the internal catch rethrows with a wrapped message). With
credentials present the source computes estimatedTokenCount =
Math.ceil(text.length / 4) and fabricates the deterministic mock vector whose
seed is text.length; the usage-tracking side effect does not affect the
returned value and is not modelled. -/
noncomputable def BedrockEmbedder.generateEmbedding (e : BedrockEmbedder)
    (text : String) : Except String BedrockEmbeddingResult :=
  if e.accessKeyId = "" ∨ e.secretAccessKey = "" then
    .error ("Failed to generate embedding with Bedrock: "
      ++ "AWS credentials are required for Bedrock embedding generation")
  else
    .ok { embedding := mockBedrockEmbedding text.length
          tokenCount := (text.length + 3) / 4 }

/-! ### Brave search provider (src/context/providers/brave.ts) -/

/-- One result object of the Brave Search API response. The optional
extra_snippets array is modelled as a list, empty when absent (the source
only ever tests it for non-emptiness). -/
structure BraveSearchResult where
  title : String
  url : String
  description : String
  updated : Option String := none
  extraSnippets : List String := []
  deriving DecidableEq, Repr

/-- The parsed Brave Search API response body. data.web?.results and
data.news?.results are each modelled as a list that is empty when the
property is absent: the source guards every use with a length > 0 check, so
absent and empty are indistinguishable. -/
structure BraveSearchResponse where
  web : List BraveSearchResult := []
  news : List BraveSearchResult := []
  deriving DecidableEq, Repr

/-- The source document pushed for web result number i (0-based): a
ContextSource with id web-(i+1), the description as content, and source, url
and title metadata. -/
def braveWebSource (i : Nat) (r : BraveSearchResult) : Document :=
  { id := some ("web-" ++ toString (i + 1))
    content := r.description
    metadata := some [("source", "web"), ("url", r.url), ("title", r.title)] }

/-- The context-string block appended for web result number i. -/
def braveWebEntry (i : Nat) (r : BraveSearchResult) : String :=
  "Source " ++ toString (i + 1) ++ ": " ++ r.title ++ "\n"
    ++ "URL: " ++ r.url ++ "\n"
    ++ r.description ++ "\n"
    ++ (if r.extraSnippets ≠ [] then
          "Additional information: " ++ String.intercalate " " r.extraSnippets ++ "\n"
        else "")
    ++ "\n"

/-- The source document pushed for news result number i: id news-(i+1) plus a
date metadata entry when the result carries an updated field. -/
def braveNewsSource (i : Nat) (r : BraveSearchResult) : Document :=
  { id := some ("news-" ++ toString (i + 1))
    content := r.description
    metadata := some ([("source", "news"), ("url", r.url), ("title", r.title)]
      ++ (match r.updated with | some d => [("date", d)] | none => [])) }

/-- The context-string block appended for news result number i. -/
def braveNewsEntry (i : Nat) (r : BraveSearchResult) : String :=
  "Source " ++ toString (i + 1) ++ ": " ++ r.title ++ "\n"
    ++ "URL: " ++ r.url ++ "\n"
    ++ (match r.updated with | some d => "Date: " ++ d ++ "\n" | none => "")
    ++ r.description ++ "\n\n"

/-- Successful-response processing of BraveSearchProvider.getContext: build
sources and the context string from web results then news results; when no
source was pushed the context string is replaced by the no-results line; the
token count is Math.ceil(contextString.length / 4). -/
def braveProcessResponse (query : String) (data : BraveSearchResponse) : ContextResult :=
  let webSources := data.web.enum.map (fun p => braveWebSource p.1 p.2)
  let newsSources := data.news.enum.map (fun p => braveNewsSource p.1 p.2)
  let contextString :=
    (if data.web ≠ [] then
        "From web search:\n\n"
          ++ String.join (data.web.enum.map (fun p => braveWebEntry p.1 p.2))
      else "")
    ++ (if data.news ≠ [] then
        "News results:\n\n"
          ++ String.join (data.news.enum.map (fun p => braveNewsEntry p.1 p.2))
      else "")
  let sources := webSources ++ newsSources
  let contextString :=
    if sources = [] then "No search results found for: \"" ++ query ++ "\""
    else contextString
  { context := contextString
    sources := sources
    tokenCount := (contextString.length + 3) / 4 }

/-- Model of BraveSearchProvider.getMockResults. The two fabricated
example.com sources are sliced to maxResults; the mock context string is the
template literal after its trim() (the trim removes exactly the literal
leading newline and the trailing newline plus indentation, since the string
begins and ends with literal non-whitespace around the interpolations). -/
def getMockResults (query : String) (maxResults : Nat) : ContextResult :=
  let mockSources : List Document :=
    [ { id := some "web-1"
        content := "Search result about " ++ query ++ "."
        metadata := some [("source", "web"),
          ("url", "https://example.com/search-result-1"),
          ("title", "Information about " ++ query)] },
      { id := some "web-2"
        content := "Additional information related to " ++ query ++ " from another source."
        metadata := some [("source", "web"),
          ("url", "https://example.com/search-result-2"),
          ("title", "More about " ++ query)] } ].take maxResults
  let mockContext :=
    "From web search:\n\nSource 1: Information about " ++ query
      ++ "\nURL: https://example.com/search-result-1\nSearch result about " ++ query
      ++ ".\n\nSource 2: More about " ++ query
      ++ "\nURL: https://example.com/search-result-2\nAdditional information related to "
      ++ query ++ " from another source."
  { context := mockContext
    sources := mockSources
    tokenCount := (mockContext.length + 3) / 4 }

/-- Model of BraveSearchProvider.getContext. maxResultsOpt is
options.maxResults (absent and 0 default to 5 via JS ||). api is the outcome
of the Brave API interaction: .error covers both a rejected fetch and a
non-ok HTTP status (the source throws on !response.ok inside the same try).
With no API key the mock results are returned with the caller maxResults; on
an API error the catch falls back to getMockResults(query) whose maxResults
parameter defaults to 3. The function has no failure exit: every path
returns a ContextResult. -/
def braveGetContext (apiKey : String) (query : String) (maxResultsOpt : Option Nat)
    (api : Except String BraveSearchResponse) : ContextResult :=
  let maxResults := jsOrNat maxResultsOpt 5
  if apiKey = "" then getMockResults query maxResults
  else
    match api with
    | .error _ => getMockResults query 3
    | .ok data => braveProcessResponse query data

/-! ### Summarization and the fallback orchestrator
(src/context/providers/lightrag.ts) -/

/-- Token usage block of a model router response. -/
structure TokenUsage where
  contextTokens : Nat
  completionTokens : Nat
  totalTokens : Nat
  deriving DecidableEq, Repr

/-- Model of the routeModelCall response consumed by summarizeWebResults:
a success flag, the optional data.content, and the optional usage block
(each usage field defaults to 0 via JS ||, which is the identity on Nat). -/
structure ModelCallResponse where
  success : Bool
  content : Option String := none
  usage : Option TokenUsage := none
  deriving DecidableEq, Repr

/-- The citation note appended to a successful summary. -/
def summarizeDisclaimer : String :=
  "\n\n(This information is from web search results and may not be fully "
    ++ "accurate. Refer to the original sources for verification.)"

/-- The pair produced by the catch branch of summarizeWebResults. -/
def summarizeFailure : String × TokenUsage :=
  ("Unable to summarize web search results due to an error.", ⟨0, 0, 0⟩)

/-- The condition under which the summarization step fails in the source:
routeModelCall rejects, or the response has success false, or data?.content
is absent or empty (JS falsiness of the string). -/
def summarizationFails (response : Except String ModelCallResponse) : Bool :=
  match response with
  | .error _ => true
  | .ok r =>
    if r.success then
      match r.content with
      | some c => c == ""
      | none => true
    else true

/-- Model of LightRAGContextProvider.summarizeWebResults. The search context
and instance id arguments only shape the prompt of the external call, whose
outcome is the response parameter here. On a rejected call, or a response
without success or content, the internal catch yields the failure pair;
otherwise the summary is the content with the citation note appended and the
token usage is the usage block (zeros when absent). This function has no
failure exit. -/
def summarizeWebResults (response : Except String ModelCallResponse) :
    String × TokenUsage :=
  match response with
  | .error _ => summarizeFailure
  | .ok r =>
    if r.success then
      match r.content with
      | some c =>
        if c = "" then summarizeFailure
        else (c ++ summarizeDisclaimer, r.usage.getD ⟨0, 0, 0⟩)
      | none => summarizeFailure
    else summarizeFailure

/-- The rag_configurations row for an instance; every column the orchestrator
reads is optional (a null column behaves like an absent one under both JS ||
and ??). -/
structure RagConfig where
  embeddingProvider : Option String := none
  embeddingModelId : Option String := none
  maxChunks : Option Nat := none
  similarityThreshold : Option ℚ := none
  enableDeduplication : Option Bool := none
  trackTokenUsage : Option Bool := none
  enableFallbackSearch : Option Bool := none
  deriving DecidableEq, Repr

/-- The options object passed to LightRAGContextProvider.getContext (the
fields the orchestrator reads; the filter passes straight through to the
retrieval call, which is an external outcome here). -/
structure ProviderOptions where
  aiInstanceId : Option String := none
  embeddingProvider : Option String := none
  embeddingModel : Option String := none
  maxChunks : Option Nat := none
  similarityThreshold : Option ℚ := none
  maxTokens : Option Nat := none
  deriving DecidableEq, Repr

/-- Outcomes of the external collaborators of one getContext invocation.
ragConfig: the rag_configurations row (none when the lookup errs — supabase
reports that in-band, not by throwing). embed: the embedding call (vector of
rationals; the orchestrator only forwards it to retrieval). retrieve: the
document list produced by lightrag retrieval (an .error models
RetrievalError). webSearch: the awaited result of
braveSearchProvider.getContext (kept as an Except because the orchestrator
guards it with its own try/catch, even though the Brave provider is total).
summarize: the routeModelCall outcome inside summarizeWebResults. The
resolved embedding provider, model, maxChunks, similarityThreshold and
filter parameterize these external calls but cannot influence the
orchestrator's own control flow, which is why they are pre-recorded outcomes
here. Usage-tracking writes are fire-and-forget side effects with internal
catch handlers and are not modelled. -/
structure Collaborators where
  ragConfig : Option RagConfig := none
  embed : Except String (List ℚ) := .ok []
  retrieve : Except String (List Document) := .ok []
  webSearch : Except String ContextResult := .ok ⟨"", [], 0⟩
  summarize : Except String ModelCallResponse := .error ""
  deriving Repr

/-- The result of one getContext run together with instrumentation: how many
times the web-search capability and the summarization step were invoked. -/
structure GetContextRun where
  result : ContextResult
  webSearchCalls : Nat
  summarizeCalls : Nat
  deriving DecidableEq, Repr

/-- The diagnostic context produced by the outer catch of getContext: the
template literal around the error message, trimmed (the trim removes the
leading literal newline and the trailing newline plus indentation, plus any
whitespace at the edges of the message itself). -/
def ragErrorContext (msg : String) : String :=
  ("\nUnable to retrieve contextual information from documents at this time. "
    ++ "The RAG system encountered an error: " ++ msg ++ "\n      ").trim

/-- The full ContextResult of the outer catch: the diagnostic text, no
sources, and Math.ceil(errorMessage.length / 4) tokens. -/
def ragErrorResult (msg : String) : ContextResult :=
  let errorMessage := ragErrorContext msg
  { context := errorMessage
    sources := []
    tokenCount := (errorMessage.length + 3) / 4 }

/-- JS truthiness of the aiInstanceId option: absent and empty are falsy. -/
def jsTruthyStr : Option String → Bool
  | none => false
  | some s => s ≠ ""

/-- The contextOptions object built by the orchestrator before calling
lightrag.generateContext: maxContextLength = options.maxTokens || 4000,
formatAsJson false, includeMetadata true, deduplicate =
ragConfig?.enable_deduplication ?? true; no separator (the builder default
applies). -/
def orchestratorContextOptions (options : ProviderOptions)
    (ragConfig : Option RagConfig) : ContextBuilderOptions :=
  { maxContextLength := some (jsOrNat options.maxTokens 4000)
    formatAsJson := some false
    includeMetadata := some true
    deduplicate := some ((ragConfig.bind (·.enableDeduplication)).getD true) }

/-- Model of LightRAGContextProvider.getContext. Control flow exactly as in
the source: a falsy aiInstanceId throws (caught by the outer catch); a
failed embedding call is rethrown with the wrapped message and caught; a
failed retrieval is caught; retrieval success feeds buildContext; a
non-empty sources list returns that ContextResult immediately; otherwise,
when fallback search is enabled, the Brave provider is called once — an
exception there is caught and drops through to the final empty return; a
response with content is summarized once (summarizeWebResults is total) and
its summary, the web sources and the summarization totalTokens are
returned; a response without content drops through to the final return of
the (empty) built result. Every path returns a GetContextRun: the function
never propagates an exception. -/
def getContext (query : String) (options : ProviderOptions)
    (ext : Collaborators) : GetContextRun :=
  if jsTruthyStr options.aiInstanceId then
    let enableFallbackSearch := (ext.ragConfig.bind (·.enableFallbackSearch)).getD true
    match ext.embed with
    | .error e => ⟨ragErrorResult ("Failed to generate embedding: " ++ e), 0, 0⟩
    | .ok _ =>
      match ext.retrieve with
      | .error e => ⟨ragErrorResult e, 0, 0⟩
      | .ok documents =>
        let contextResult :=
          buildContext documents (orchestratorContextOptions options ext.ragConfig)
        if 0 < contextResult.sources.length then
          ⟨contextResult, 0, 0⟩
        else if enableFallbackSearch then
          match ext.webSearch with
          | .error _ => ⟨contextResult, 1, 0⟩
          | .ok braveSearchResult =>
            if braveSearchResult.context ≠ "" then
              let sr := summarizeWebResults ext.summarize
              ⟨{ context := sr.1
                 sources := braveSearchResult.sources
                 tokenCount := sr.2.totalTokens }, 1, 1⟩
            else ⟨contextResult, 1, 0⟩
        else ⟨contextResult, 0, 0⟩
  else ⟨ragErrorResult "aiInstanceId is required", 0, 0⟩

/-! ### Concrete scenarios used to exercise the theorems below -/

/-- A retrieved document whose content is the empty string and which carries
no metadata: its plain-text rendering contributes nothing to the context. -/
def emptyContentDoc : Document :=
  { id := none, content := "", metadata := none, score := none }

/-- The lower-scoring duplicate of the spec scenario (score 0.6, input first). -/
def lowScoreDup : Document :=
  { content := "dup", score := some (6 / 10) }

/-- The higher-scoring duplicate of the spec scenario (score 0.9, input second). -/
def highScoreDup : Document :=
  { content := "dup", score := some (9 / 10) }

/-- A BedrockEmbedder with test credentials present. -/
def testBedrockEmbedder : BedrockEmbedder :=
  { accessKeyId := "AKIATEST", secretAccessKey := "testsecret" }

/-- The single high-scoring document of the spec's concrete hit scenario. -/
def parisDoc : Document :=
  { id := some "doc1"
    content := "Paris is the capital of France."
    metadata := some [("title", "Paris")]
    score := some (95 / 100) }

/-- Options with a valid instance id, used by the orchestrator scenarios. -/
def instanceOptions : ProviderOptions :=
  { aiInstanceId := some "inst" }

/-- Collaborator outcomes for a primary-retrieval hit: one document comes
back and nothing downstream should run. -/
def hitCollaborators : Collaborators :=
  { ragConfig := none
    embed := .ok []
    retrieve := .ok [parisDoc]
    webSearch := .ok ⟨"unused", [], 0⟩
    summarize := .error "unused" }

/-- The web-search result used by the fallback scenarios: non-empty context
and one source. -/
def webFallbackResult : ContextResult :=
  ⟨"web stuff", [{ id := some "web-1", content := "W" }], 3⟩

/-- Collaborator outcomes for the fallback path in which the summarization
call rejects. -/
def failingSummarizeCollaborators : Collaborators :=
  { ragConfig := none
    embed := .ok []
    retrieve := .ok []
    webSearch := .ok webFallbackResult
    summarize := .error "model down" }

/-- Collaborator outcomes for the fallback path in which the summarization
call succeeds with content and a usage block. -/
def okSummarizeCollaborators : Collaborators :=
  { ragConfig := none
    embed := .ok []
    retrieve := .ok []
    webSearch := .ok webFallbackResult
    summarize := .ok ⟨true, some "A web summary.", some ⟨100, 20, 120⟩⟩ }

/-! ### Structural lemmas about the context builder -/

/-- Inserting into the score-sorted list is a permutation of consing. -/
lemma insertByScore_perm (a : Document) (l : List Document) :
    List.Perm (insertByScore a l) (a :: l) := by
  induction l with
  | nil => exact .refl _
  | cons b t ih =>
    rw [insertByScore]
    split
    · exact .refl _
    · exact (List.Perm.cons b ih).trans (List.Perm.swap a b t)

/-- The stable sort by score is a permutation of its input. -/
lemma sortByScoreDesc_perm (l : List Document) :
    List.Perm (sortByScoreDesc l) l := by
  induction l with
  | nil => exact .refl _
  | cons a t ih =>
    exact (insertByScore_perm a (sortByScoreDesc t)).trans (List.Perm.cons a ih)

/-- The plain-text fold of buildContext pushes exactly the folded documents
onto the accumulator sources, in order. -/
lemma foldl_textStep_sources (opts : MergedOptions) (l : List Document) :
    ∀ acc : BuildAcc, (l.foldl (textStep opts) acc).sources = acc.sources ++ l := by
  induction l with
  | nil => intro acc; simp
  | cons d t ih =>
    intro acc
    rw [List.foldl_cons, ih]
    simp [textStep]

/-- The plain-text fold of buildContext adds exactly the per-document token
estimates to the accumulator count. -/
lemma foldl_textStep_tokenCount (opts : MergedOptions) (l : List Document) :
    ∀ acc : BuildAcc, (l.foldl (textStep opts) acc).tokenCount =
      acc.tokenCount + (l.map (fun d => estimateTokens d.content)).sum := by
  induction l with
  | nil => intro acc; simp
  | cons d t ih =>
    intro acc
    rw [List.foldl_cons, ih]
    simp [textStep]
    omega

/-- In both rendering branches, the sources of buildContext are the sorted
deduplicated (when requested) documents. -/
lemma buildContext_sources (docs : List Document) (o : ContextBuilderOptions) :
    (buildContext docs o).sources =
      sortByScoreDesc
        (if (mergeOptions o).deduplicate then deduplicateDocuments docs else docs) := by
  rw [buildContext]
  split
  · rfl
  · simp [foldl_textStep_sources]

/-- In both rendering branches, the token count of buildContext is the sum of
the per-document estimates over its sources. -/
lemma buildContext_tokenCount (docs : List Document) (o : ContextBuilderOptions) :
    (buildContext docs o).tokenCount =
      ((buildContext docs o).sources.map (fun d => estimateTokens d.content)).sum := by
  rw [buildContext_sources, buildContext]
  split
  · rfl
  · simp [foldl_textStep_tokenCount, foldl_textStep_sources]

/-- Deduplication of a non-empty list is non-empty: the head is always kept. -/
lemma deduplicateDocuments_ne_nil (d : Document) (l : List Document) :
    deduplicateDocuments (d :: l) ≠ [] := by
  simp [deduplicateDocuments, dedupeGo]

/-- The sources of buildContext are empty exactly when the input list is. -/
lemma buildContext_sources_eq_nil_iff (docs : List Document) (o : ContextBuilderOptions) :
    (buildContext docs o).sources = [] ↔ docs = [] := by
  rw [buildContext_sources]
  constructor
  · intro h
    have hp : (if (mergeOptions o).deduplicate then deduplicateDocuments docs else docs) = [] := by
      have hlen := (sortByScoreDesc_perm
        (if (mergeOptions o).deduplicate then deduplicateDocuments docs else docs)).length_eq
      rw [h] at hlen
      exact List.length_eq_zero.mp hlen.symm
    by_cases hd : (mergeOptions o).deduplicate
    · rw [if_pos hd] at hp
      cases docs with
      | nil => rfl
      | cons a t => exact absurd hp (deduplicateDocuments_ne_nil a t)
    · rwa [if_neg hd] at hp
  · intro h
    subst h
    simp [deduplicateDocuments, dedupeGo, sortByScoreDesc]

/-- Evaluation of buildContext on the empty document list. -/
lemma buildContext_nil (o : ContextBuilderOptions) :
    buildContext [] o =
      { context := if (mergeOptions o).formatAsJson then "[]" else ""
        sources := []
        tokenCount := 0 } := by
  rw [buildContext]
  simp [deduplicateDocuments, dedupeGo, sortByScoreDesc, jsonStringifyDocs]
  split
  · simp_all
  · simp_all

/-- Filtering the deduplicated list by fingerprint value f keeps exactly the
first input document with that fingerprint, provided f was not already in
the seen set (and nothing, when it was). -/
lemma dedupeGo_filter (f : String) (docs : List Document) : ∀ seen : List String,
    (dedupeGo seen docs).filter (fun d => fingerprint d == f) =
      if f ∈ seen then [] else (docs.find? (fun d => fingerprint d == f)).toList := by
  induction docs with
  | nil =>
    intro seen
    by_cases hf : f ∈ seen <;> simp [dedupeGo, hf]
  | cons d rest ih =>
    intro seen
    rw [dedupeGo]
    by_cases hd : fingerprint d ∈ seen
    · rw [if_pos hd, ih seen]
      by_cases hf : f ∈ seen
      · rw [if_pos hf, if_pos hf]
      · have hne : (fingerprint d == f) = false := by
          simp only [beq_eq_false_iff_ne]
          intro he
          exact hf (he ▸ hd)
        rw [if_neg hf, if_neg hf]
        have hfind : List.find? (fun x => fingerprint x == f) (d :: rest) =
            List.find? (fun x => fingerprint x == f) rest :=
          List.find?_cons_of_neg rest (by simp [hne])
        rw [hfind]
    · rw [if_neg hd]
      by_cases hdf : (fingerprint d == f) = true
      · have hfd : f = fingerprint d := (beq_iff_eq.mp hdf).symm
        have hf : f ∉ seen := fun h => hd (hfd ▸ h)
        have hfind : List.find? (fun x => fingerprint x == f) (d :: rest) = some d :=
          List.find?_cons_of_pos rest hdf
        have hfilt : List.filter (fun x => fingerprint x == f)
              (d :: dedupeGo (fingerprint d :: seen) rest) =
            d :: List.filter (fun x => fingerprint x == f)
              (dedupeGo (fingerprint d :: seen) rest) :=
          List.filter_cons_of_pos hdf
        rw [if_neg hf, hfind, hfilt, ih (fingerprint d :: seen), if_pos (by simp [hfd])]
        rfl
      · have hne : (fingerprint d == f) = false := by
          simpa using hdf
        have hnef : fingerprint d ≠ f := by
          simpa using hdf
        have hfind : List.find? (fun x => fingerprint x == f) (d :: rest) =
            List.find? (fun x => fingerprint x == f) rest :=
          List.find?_cons_of_neg rest (by simp [hne])
        have hfilt : List.filter (fun x => fingerprint x == f)
              (d :: dedupeGo (fingerprint d :: seen) rest) =
            List.filter (fun x => fingerprint x == f)
              (dedupeGo (fingerprint d :: seen) rest) :=
          List.filter_cons_of_neg (by simp [hne])
        rw [hfind, hfilt, ih (fingerprint d :: seen)]
        have hmem : (f ∈ fingerprint d :: seen) ↔ f ∈ seen := by
          simp only [List.mem_cons, or_iff_right_iff_imp]
          intro he
          exact absurd he.symm hnef
        by_cases hf : f ∈ seen
        · rw [if_pos (hmem.mpr hf), if_pos hf]
        · rw [if_neg (fun h => hf (hmem.mp h)), if_neg hf]

/-- Filtering the full deduplication by a fingerprint keeps exactly the first
input document with that fingerprint. -/
lemma deduplicateDocuments_filter (f : String) (docs : List Document) :
    (deduplicateDocuments docs).filter (fun d => fingerprint d == f) =
      (docs.find? (fun d => fingerprint d == f)).toList := by
  rw [deduplicateDocuments, dedupeGo_filter]
  simp

/-! ### Claim theorems for the context builder and the embedding factory -/

/-- C7: for every document list and every combination of ContextBuilder
options (JSON and plain-text rendering alike), the returned
ContextResult.tokenCount equals the sum, over the documents actually emitted
into the context (the result sources), of ceil(length(content) / 4);
metadata text and separators contribute nothing to the count. -/
theorem buildContext_tokenCount_is_sum_of_content_ceil
    (docs : List Document) (o : ContextBuilderOptions) :
    (buildContext docs o).tokenCount =
      ((buildContext docs o).sources.map (fun d => (d.content.length + 3) / 4)).sum :=
  buildContext_tokenCount docs o

/-- C6: with deduplicate on, every fingerprint group (first 100 characters of
content) present in the input contributes exactly one document to the
buildContext output, namely the group member appearing first in the input
order (List.find?), regardless of scores. -/
theorem buildContext_dedup_keeps_first_in_input_order
    (docs : List Document) (o : ContextBuilderOptions)
    (hdedup : (mergeOptions o).deduplicate = true)
    (f : String) (hf : ∃ d ∈ docs, fingerprint d = f) :
    ((buildContext docs o).sources.filter (fun d => fingerprint d == f)).length = 1 ∧
    (buildContext docs o).sources.filter (fun d => fingerprint d == f) =
      (docs.find? (fun d => fingerprint d == f)).toList := by
  have hsrc : (buildContext docs o).sources = sortByScoreDesc (deduplicateDocuments docs) := by
    rw [buildContext_sources, hdedup]
    simp
  have hperm : List.Perm
      ((buildContext docs o).sources.filter (fun d => fingerprint d == f))
      ((deduplicateDocuments docs).filter (fun d => fingerprint d == f)) := by
    rw [hsrc]
    exact (sortByScoreDesc_perm (deduplicateDocuments docs)).filter _
  rw [deduplicateDocuments_filter] at hperm
  obtain ⟨d0, hd0mem, hd0fp⟩ := hf
  have hsome : (docs.find? (fun d => fingerprint d == f)).isSome :=
    List.find?_isSome.mpr ⟨d0, hd0mem, by simp [hd0fp]⟩
  obtain ⟨d1, hd1⟩ := Option.isSome_iff_exists.mp hsome
  rw [hd1] at hperm
  have heq : (buildContext docs o).sources.filter (fun d => fingerprint d == f) = [d1] :=
    List.perm_singleton.mp (by simpa using hperm)
  refine ⟨by rw [heq]; rfl, ?_⟩
  rw [heq, hd1]
  rfl

/-- Witness for C6 at the spec's concrete scenario: input order
[0.6-scored document, 0.9-scored document] with identical fingerprints;
exactly one document survives and it is the first-in-input (0.6) one. -/
theorem buildContext_dedup_keeps_first_in_input_order_witness :
    ((mergeOptions {}).deduplicate = true) ∧
    (∃ d ∈ [lowScoreDup, highScoreDup], fingerprint d = "dup") ∧
    ((((buildContext [lowScoreDup, highScoreDup] {}).sources.filter
        (fun d => fingerprint d == "dup")).length = 1) ∧
      (buildContext [lowScoreDup, highScoreDup] {}).sources.filter
          (fun d => fingerprint d == "dup") =
        (([lowScoreDup, highScoreDup]).find? (fun d => fingerprint d == "dup")).toList) :=
  ⟨by decide, by decide,
    buildContext_dedup_keeps_first_in_input_order [lowScoreDup, highScoreDup] {}
      (by decide) "dup" (by decide)⟩

/-- C3 counterexample: a single retrieved document with empty content and no
metadata produces a ContextResult pairing the empty context string with a
non-empty sources list, refuting the claimed equivalence. -/
theorem buildContext_empty_context_with_nonempty_sources :
    (buildContext [emptyContentDoc] {}).context = "" ∧
    (buildContext [emptyContentDoc] {}).sources = [emptyContentDoc] ∧
    (buildContext [emptyContentDoc] {}).sources ≠ [] := by
  decide

/-- C3 amended: the forward direction holds — whenever a ContextResult of
buildContext has no sources, its context is the empty string (plain-text
rendering) or the empty JSON array (JSON rendering); the converse fails, see
the counterexample. -/
theorem buildContext_no_sources_context_is_placeholder
    (docs : List Document) (o : ContextBuilderOptions)
    (h : (buildContext docs o).sources = []) :
    (buildContext docs o).context =
      (if (mergeOptions o).formatAsJson then "[]" else "") := by
  have hdocs := (buildContext_sources_eq_nil_iff docs o).mp h
  subst hdocs
  rw [buildContext_nil]

/-- Witness for the amended C3 at the empty document list. -/
theorem buildContext_no_sources_context_is_placeholder_witness :
    ((buildContext [] {}).sources = []) ∧
    (buildContext [] {}).context = (if (mergeOptions {}).formatAsJson then "[]" else "") :=
  ⟨by decide, buildContext_no_sources_context_is_placeholder [] {} (by decide)⟩

/-- C4 counterexample: the unrecognized provider name openai does not fail;
createEmbeddingProvider silently substitutes the Fireworks backend with the
default model id. The factory has no failure path at all, so no
ConfigurationError can be raised. -/
theorem createEmbeddingProvider_unknown_name_substitutes_fireworks :
    createEmbeddingProvider "openai" none {} =
      EmbeddingBackend.fireworks "deepseek-v3" true := by
  decide

/-- C4 amended: for every provider name whose lowercase form is not bedrock
(including every unrecognized name and the empty string),
createEmbeddingProvider returns the Fireworks backend with the model id
defaulted to deepseek-v3 when absent or empty — it silently defaults instead
of failing with a ConfigurationError. -/
theorem createEmbeddingProvider_non_bedrock_defaults_to_fireworks
    (provider : String) (modelId : Option String) (config : ProviderConfig)
    (h : jsToLower provider ≠ "bedrock") :
    createEmbeddingProvider provider modelId config =
      EmbeddingBackend.fireworks (jsOrStr modelId "deepseek-v3")
        (config.trackUsage.getD true) := by
  rw [createEmbeddingProvider]
  by_cases he : jsToLower provider = ""
  · simp [he]
  · simp only [he, if_false]
    rw [if_neg (by simpa [he] using h)]
    split <;> rfl

/-- Witness for the amended C4 at the provider name openai. -/
theorem createEmbeddingProvider_non_bedrock_defaults_to_fireworks_witness :
    (jsToLower "openai" ≠ "bedrock") ∧
    createEmbeddingProvider "openai" (some "my-model") {} =
      EmbeddingBackend.fireworks (jsOrStr (some "my-model") "deepseek-v3")
        (ProviderConfig.trackUsage {} |>.getD true) :=
  ⟨by decide, createEmbeddingProvider_non_bedrock_defaults_to_fireworks
    "openai" (some "my-model") {} (by decide)⟩

/-! ### Claim theorems for the Bedrock embedder and the Brave provider -/

/-- C10: for the Bedrock backend with credentials present, the embedding is a
function of the input length alone — two inputs of equal character length
produce identical results — and the result is a 1536-dimensional vector with
tokenCount = ceil(length / 4). -/
theorem bedrock_embedding_function_of_length_only (e : BedrockEmbedder)
    (h1 : e.accessKeyId ≠ "") (h2 : e.secretAccessKey ≠ "")
    (t1 t2 : String) (hl : t1.length = t2.length) :
    e.generateEmbedding t1 = e.generateEmbedding t2 ∧
    ∃ r, e.generateEmbedding t1 = .ok r ∧ r.embedding.length = 1536 ∧
      r.tokenCount = (t1.length + 3) / 4 := by
  have hc : ¬(e.accessKeyId = "" ∨ e.secretAccessKey = "") := by
    rintro (h | h)
    · exact h1 h
    · exact h2 h
  constructor
  · unfold BedrockEmbedder.generateEmbedding
    rw [if_neg hc, if_neg hc, hl]
  · exact ⟨{ embedding := mockBedrockEmbedding t1.length, tokenCount := (t1.length + 3) / 4 },
      by unfold BedrockEmbedder.generateEmbedding; rw [if_neg hc],
      by simp [mockBedrockEmbedding],
      rfl⟩

/-- Witness for C10: the test embedder with credentials, on the equal-length
inputs ab and cd. -/
theorem bedrock_embedding_function_of_length_only_witness :
    (testBedrockEmbedder.accessKeyId ≠ "") ∧
    (testBedrockEmbedder.secretAccessKey ≠ "") ∧
    ("ab".length = "cd".length) ∧
    (testBedrockEmbedder.generateEmbedding "ab" = testBedrockEmbedder.generateEmbedding "cd" ∧
      ∃ r, testBedrockEmbedder.generateEmbedding "ab" = .ok r ∧
        r.embedding.length = 1536 ∧ r.tokenCount = ("ab".length + 3) / 4) :=
  ⟨by decide, by decide, by decide,
    bedrock_embedding_function_of_length_only testBedrockEmbedder
      (by decide) (by decide) "ab" "cd" (by decide)⟩

/-- jsOrNat never returns below a positive default. -/
lemma one_le_jsOrNat (a : Option Nat) (b : Nat) (hb : 1 ≤ b) : 1 ≤ jsOrNat a b := by
  cases a with
  | none => exact hb
  | some n =>
    rw [jsOrNat]
    split
    · exact hb
    · omega

/-- A string that ends in a non-empty literal chunk is non-empty. -/
lemma append_ne_empty_of_right (x y : String) (hy : 0 < y.length) : x ++ y ≠ "" := by
  intro h
  have hlen := congrArg String.length h
  simp only [String.length_append] at hlen
  have h0 : ("" : String).length = 0 := rfl
  omega

/-- Shape of the mock results for any positive maxResults: non-empty context,
between one and two sources, every source with non-empty content and an
example.com url in its metadata. -/
lemma getMockResults_spec (q : String) (n : Nat) (hn : 1 ≤ n) :
    (getMockResults q n).context ≠ "" ∧
    1 ≤ (getMockResults q n).sources.length ∧
    (getMockResults q n).sources.length ≤ 2 ∧
    ∀ s ∈ (getMockResults q n).sources,
      s.content ≠ "" ∧ ∃ m, s.metadata = some m ∧
        (("url", "https://example.com/search-result-1") ∈ m ∨
         ("url", "https://example.com/search-result-2") ∈ m) := by
  refine ⟨?_, ?_, ?_, ?_⟩
  · exact append_ne_empty_of_right _ _ (by decide)
  · show 1 ≤ (List.take n _).length
    rw [List.length_take]
    simp only [List.length_cons, List.length_nil]
    omega
  · show (List.take n _).length ≤ 2
    rw [List.length_take]
    simp only [List.length_cons, List.length_nil]
    omega
  · intro s hs
    have hmem := List.take_subset n _ hs
    simp only [List.mem_cons, List.not_mem_nil, or_false] at hmem
    rcases hmem with h | h
    · subst h
      refine ⟨append_ne_empty_of_right _ _ (by decide), _, rfl, Or.inl (by simp)⟩
    · subst h
      refine ⟨append_ne_empty_of_right _ _ (by decide), _, rfl, Or.inr (by simp)⟩

/-- C9: BraveSearchProvider.getContext never propagates an exception (the
model is a total function); whenever the API key is absent or the API call
fails, it returns the fabricated mock results: a non-empty context and one
or two example.com sources with non-empty content, so the orchestrator's
fallback branch receives synthetic content instead of an exception. -/
theorem braveGetContext_failure_yields_mock (apiKey query : String)
    (maxResultsOpt : Option Nat) (api : Except String BraveSearchResponse)
    (h : apiKey = "" ∨ failed api = true) :
    ∃ n, 1 ≤ n ∧ braveGetContext apiKey query maxResultsOpt api = getMockResults query n ∧
      (braveGetContext apiKey query maxResultsOpt api).context ≠ "" ∧
      1 ≤ (braveGetContext apiKey query maxResultsOpt api).sources.length ∧
      (braveGetContext apiKey query maxResultsOpt api).sources.length ≤ 2 ∧
      ∀ s ∈ (braveGetContext apiKey query maxResultsOpt api).sources,
        s.content ≠ "" ∧ ∃ m, s.metadata = some m ∧
          (("url", "https://example.com/search-result-1") ∈ m ∨
           ("url", "https://example.com/search-result-2") ∈ m) := by
  have hmock : ∃ n, 1 ≤ n ∧
      braveGetContext apiKey query maxResultsOpt api = getMockResults query n := by
    by_cases hk : apiKey = ""
    · refine ⟨jsOrNat maxResultsOpt 5, one_le_jsOrNat _ _ (by omega), ?_⟩
      simp [braveGetContext, hk]
    · cases hapi : api with
      | error e =>
        refine ⟨3, by omega, ?_⟩
        simp [braveGetContext, hk]
      | ok data =>
        rcases h with h | h
        · exact absurd h hk
        · rw [hapi] at h
          exact absurd h (by simp [failed])
  obtain ⟨n, hn, heq⟩ := hmock
  obtain ⟨hc, hl1, hl2, hsrc⟩ := getMockResults_spec query n hn
  rw [heq]
  exact ⟨n, hn, rfl, hc, hl1, hl2, hsrc⟩

/-- Witness for C9: absent API key, any query, default maxResults, healthy
API outcome (the key branch alone forces the mock). -/
theorem braveGetContext_failure_yields_mock_witness :
    (("" : String) = "" ∨ failed (Except.ok ({} : BraveSearchResponse)) = true) ∧
    (∃ n, 1 ≤ n ∧
      braveGetContext "" "llamas" none (.ok {}) = getMockResults "llamas" n ∧
      (braveGetContext "" "llamas" none (.ok {})).context ≠ "" ∧
      1 ≤ (braveGetContext "" "llamas" none (.ok {})).sources.length ∧
      (braveGetContext "" "llamas" none (.ok {})).sources.length ≤ 2 ∧
      ∀ s ∈ (braveGetContext "" "llamas" none (.ok {})).sources,
        s.content ≠ "" ∧ ∃ m, s.metadata = some m ∧
          (("url", "https://example.com/search-result-1") ∈ m ∨
           ("url", "https://example.com/search-result-2") ∈ m)) :=
  ⟨Or.inl rfl,
    braveGetContext_failure_yields_mock "" "llamas" none (.ok {}) (Or.inl rfl)⟩

/-! ### Claim theorems for the fallback orchestrator -/

/-- The built context of the orchestrator on an empty retrieval is the empty
result (the orchestrator always requests plain-text rendering). -/
lemma orchestrator_buildContext_nil (options : ProviderOptions) (cfg : Option RagConfig) :
    buildContext [] (orchestratorContextOptions options cfg) = ⟨"", [], 0⟩ := by
  rw [buildContext_nil]
  rfl

/-- When the source's summarization-failure condition holds,
summarizeWebResults yields the failure pair. -/
lemma summarizeWebResults_of_fails (response : Except String ModelCallResponse)
    (h : summarizationFails response = true) :
    summarizeWebResults response = summarizeFailure := by
  cases response with
  | error e => rfl
  | ok r =>
    rw [summarizationFails] at h
    rw [summarizeWebResults]
    split at h
    · cases hc : r.content with
      | none => simp [hc]
      | some c =>
        rw [hc] at h
        simp only [beq_iff_eq] at h
        simp [hc, h]
    · simp_all

/-- C1: whenever an internal error terminates the invocation — a falsy
aiInstanceId, a failed embedding call, or a failed retrieval — getContext
does not raise (the model is total on every collaborator outcome; the
remaining paths return the built or fallback results) but returns the
diagnostic ContextResult: a human-readable message, no sources, and
tokenCount = ceil(length(context) / 4). -/
theorem getContext_internal_error_returns_diagnostic
    (query : String) (options : ProviderOptions) (ext : Collaborators)
    (h : jsTruthyStr options.aiInstanceId = false ∨
      failed ext.embed = true ∨ failed ext.retrieve = true) :
    ∃ msg, getContext query options ext = ⟨ragErrorResult msg, 0, 0⟩ ∧
      (getContext query options ext).result.context = ragErrorContext msg ∧
      (getContext query options ext).result.sources = [] ∧
      (getContext query options ext).result.tokenCount =
        ((getContext query options ext).result.context.length + 3) / 4 := by
  by_cases hid : jsTruthyStr options.aiInstanceId
  · cases hembed : ext.embed with
    | error e =>
      refine ⟨"Failed to generate embedding: " ++ e, ?_⟩
      simp [getContext, hid, hembed, ragErrorResult]
    | ok v =>
      have hret : failed ext.retrieve = true := by
        rcases h with h | h | h
        · rw [hid] at h
          cases h
        · rw [hembed] at h
          exact absurd h (by simp [failed])
        · exact h
      cases hretr : ext.retrieve with
      | error e =>
        refine ⟨e, ?_⟩
        simp [getContext, hid, hembed, hretr, ragErrorResult]
      | ok docs =>
        rw [hretr] at hret
        exact absurd hret (by simp [failed])
  · refine ⟨"aiInstanceId is required", ?_⟩
    have hid' : jsTruthyStr options.aiInstanceId = false := by
      simpa using hid
    simp [getContext, hid', ragErrorResult]

/-- Witness for C1: a missing aiInstanceId with otherwise healthy
collaborators forces the diagnostic exit. -/
theorem getContext_internal_error_returns_diagnostic_witness :
    (jsTruthyStr (ProviderOptions.aiInstanceId {}) = false ∨
      failed (Collaborators.embed {}) = true ∨
      failed (Collaborators.retrieve {}) = true) ∧
    (∃ msg, getContext "What is Paris?" {} {} = ⟨ragErrorResult msg, 0, 0⟩ ∧
      (getContext "What is Paris?" {} {}).result.context = ragErrorContext msg ∧
      (getContext "What is Paris?" {} {}).result.sources = [] ∧
      (getContext "What is Paris?" {} {}).result.tokenCount =
        ((getContext "What is Paris?" {} {}).result.context.length + 3) / 4) :=
  ⟨Or.inl rfl,
    getContext_internal_error_returns_diagnostic "What is Paris?" {} {} (Or.inl rfl)⟩

/-- C5: when retrieval comes back with at least one document, the built
ContextResult has at least one source and is returned immediately; the
web-search capability and the summarization step are invoked zero times. -/
theorem getContext_hit_never_invokes_web_search
    (query : String) (options : ProviderOptions) (ext : Collaborators)
    (docs : List Document) (v : List ℚ)
    (hid : jsTruthyStr options.aiInstanceId = true)
    (hemb : ext.embed = .ok v)
    (hret : ext.retrieve = .ok docs)
    (hne : docs ≠ []) :
    1 ≤ (buildContext docs (orchestratorContextOptions options ext.ragConfig)).sources.length ∧
    getContext query options ext =
      ⟨buildContext docs (orchestratorContextOptions options ext.ragConfig), 0, 0⟩ := by
  have hsne : (buildContext docs (orchestratorContextOptions options ext.ragConfig)).sources ≠ [] :=
    fun hempty => hne ((buildContext_sources_eq_nil_iff docs _).mp hempty)
  have hlen : 1 ≤
      (buildContext docs (orchestratorContextOptions options ext.ragConfig)).sources.length := by
    cases hsrc : (buildContext docs (orchestratorContextOptions options ext.ragConfig)).sources with
    | nil => exact absurd hsrc hsne
    | cons a t => simp [hsrc]
  refine ⟨hlen, ?_⟩
  simp only [getContext, hid, if_true, hemb, hret]
  rw [if_pos (show 0 <
    (buildContext docs (orchestratorContextOptions options ext.ragConfig)).sources.length
    from hlen)]

/-- Witness for C5: the spec's concrete hit scenario (one 0.95-scored Paris
document) with a web-search collaborator standing by that must not be hit. -/
theorem getContext_hit_never_invokes_web_search_witness :
    (jsTruthyStr instanceOptions.aiInstanceId = true) ∧
    (hitCollaborators.embed = .ok []) ∧
    (hitCollaborators.retrieve = .ok [parisDoc]) ∧
    ([parisDoc] ≠ ([] : List Document)) ∧
    (1 ≤ (buildContext [parisDoc]
        (orchestratorContextOptions instanceOptions hitCollaborators.ragConfig)).sources.length ∧
      getContext "What is Paris?" instanceOptions hitCollaborators =
        ⟨buildContext [parisDoc]
          (orchestratorContextOptions instanceOptions hitCollaborators.ragConfig), 0, 0⟩) :=
  ⟨rfl, rfl, rfl, by decide,
    getContext_hit_never_invokes_web_search "What is Paris?" instanceOptions hitCollaborators
      [parisDoc] [] rfl rfl rfl (by decide)⟩

/-- C8: empty retrieval, fallback enabled, web search succeeds with content,
summarization succeeds with content: the summarization step runs exactly
once, the result carries the web search's sources verbatim, the token count
is the summarization usage's totalTokens, and the context is the summary
with the web-search disclaimer appended. -/
theorem getContext_fallback_summarization_success
    (query : String) (options : ProviderOptions) (ext : Collaborators)
    (v : List ℚ) (wr : ContextResult) (resp : ModelCallResponse) (c : String)
    (hid : jsTruthyStr options.aiInstanceId = true)
    (hemb : ext.embed = .ok v)
    (hret : ext.retrieve = .ok [])
    (hfb : (ext.ragConfig.bind (·.enableFallbackSearch)).getD true = true)
    (hweb : ext.webSearch = .ok wr)
    (hwc : wr.context ≠ "")
    (hsum : ext.summarize = .ok resp)
    (hsuc : resp.success = true)
    (hcon : resp.content = some c)
    (hc : c ≠ "") :
    (getContext query options ext).summarizeCalls = 1 ∧
    (getContext query options ext).webSearchCalls = 1 ∧
    (getContext query options ext).result.sources = wr.sources ∧
    (getContext query options ext).result.tokenCount =
      (resp.usage.getD ⟨0, 0, 0⟩).totalTokens ∧
    (getContext query options ext).result.context = c ++ summarizeDisclaimer := by
  have hsw : summarizeWebResults ext.summarize =
      (c ++ summarizeDisclaimer, resp.usage.getD ⟨0, 0, 0⟩) := by
    rw [hsum, summarizeWebResults]
    simp [hsuc, hcon, hc]
  have hrun : getContext query options ext =
      ⟨⟨c ++ summarizeDisclaimer, wr.sources, (resp.usage.getD ⟨0, 0, 0⟩).totalTokens⟩, 1, 1⟩ := by
    simp only [getContext, hid, if_true, hemb, hret, orchestrator_buildContext_nil, hfb, hweb, hsw]
    simp [hwc]
  rw [hrun]
  exact ⟨rfl, rfl, rfl, rfl, rfl⟩

/-- Witness for C8: the concrete successful-summarization scenario. -/
theorem getContext_fallback_summarization_success_witness :
    (jsTruthyStr instanceOptions.aiInstanceId = true) ∧
    (okSummarizeCollaborators.embed = .ok []) ∧
    (okSummarizeCollaborators.retrieve = .ok []) ∧
    ((okSummarizeCollaborators.ragConfig.bind (·.enableFallbackSearch)).getD true = true) ∧
    (okSummarizeCollaborators.webSearch = .ok webFallbackResult) ∧
    (webFallbackResult.context ≠ "") ∧
    (okSummarizeCollaborators.summarize = .ok ⟨true, some "A web summary.", some ⟨100, 20, 120⟩⟩) ∧
    (("A web summary." : String) ≠ "") ∧
    ((getContext "q" instanceOptions okSummarizeCollaborators).summarizeCalls = 1 ∧
      (getContext "q" instanceOptions okSummarizeCollaborators).webSearchCalls = 1 ∧
      (getContext "q" instanceOptions okSummarizeCollaborators).result.sources =
        webFallbackResult.sources ∧
      (getContext "q" instanceOptions okSummarizeCollaborators).result.tokenCount =
        ((some (⟨100, 20, 120⟩ : TokenUsage)).getD ⟨0, 0, 0⟩).totalTokens ∧
      (getContext "q" instanceOptions okSummarizeCollaborators).result.context =
        "A web summary." ++ summarizeDisclaimer) :=
  ⟨rfl, rfl, rfl, rfl, rfl, by decide, rfl, by decide,
    getContext_fallback_summarization_success "q" instanceOptions okSummarizeCollaborators
      [] webFallbackResult ⟨true, some "A web summary.", some ⟨100, 20, 120⟩⟩ "A web summary."
      rfl rfl rfl rfl rfl (by decide) rfl rfl rfl (by decide)⟩

/-- C2 counterexample: retrieval yields zero documents, fallback is enabled,
web search returns content with one source, and the summarization call
rejects; getContext returns the placeholder summary with the web sources and
zero tokens — not the empty-context result claimed by the spec. -/
theorem getContext_summarization_failure_not_empty_result :
    getContext "q" instanceOptions failingSummarizeCollaborators =
      ⟨⟨"Unable to summarize web search results due to an error.",
        webFallbackResult.sources, 0⟩, 1, 1⟩ ∧
    (getContext "q" instanceOptions failingSummarizeCollaborators).result ≠ ⟨"", [], 0⟩ := by
  constructor
  · decide
  · decide

/-- C2 amended: in the summarization-failure scenario the exception is
absorbed (the model stays total) but the returned ContextResult is the
placeholder summary string with the web search's sources and tokenCount 0,
rather than the empty-context result. -/
theorem getContext_summarization_failure_returns_placeholder
    (query : String) (options : ProviderOptions) (ext : Collaborators)
    (v : List ℚ) (wr : ContextResult)
    (hid : jsTruthyStr options.aiInstanceId = true)
    (hemb : ext.embed = .ok v)
    (hret : ext.retrieve = .ok [])
    (hfb : (ext.ragConfig.bind (·.enableFallbackSearch)).getD true = true)
    (hweb : ext.webSearch = .ok wr)
    (hwc : wr.context ≠ "")
    (hfail : summarizationFails ext.summarize = true) :
    getContext query options ext =
      ⟨⟨"Unable to summarize web search results due to an error.", wr.sources, 0⟩, 1, 1⟩ := by
  have hsw : summarizeWebResults ext.summarize = summarizeFailure :=
    summarizeWebResults_of_fails ext.summarize hfail
  simp only [getContext, hid, if_true, hemb, hret, orchestrator_buildContext_nil, hfb, hweb, hsw]
  simp [hwc, summarizeFailure]

/-- Witness for the amended C2 at the concrete failing-summarization
scenario. -/
theorem getContext_summarization_failure_returns_placeholder_witness :
    (jsTruthyStr instanceOptions.aiInstanceId = true) ∧
    (failingSummarizeCollaborators.embed = .ok []) ∧
    (failingSummarizeCollaborators.retrieve = .ok []) ∧
    ((failingSummarizeCollaborators.ragConfig.bind (·.enableFallbackSearch)).getD true = true) ∧
    (failingSummarizeCollaborators.webSearch = .ok webFallbackResult) ∧
    (webFallbackResult.context ≠ "") ∧
    (summarizationFails failingSummarizeCollaborators.summarize = true) ∧
    getContext "q" instanceOptions failingSummarizeCollaborators =
      ⟨⟨"Unable to summarize web search results due to an error.",
        webFallbackResult.sources, 0⟩, 1, 1⟩ :=
  ⟨rfl, rfl, rfl, rfl, rfl, by decide, rfl,
    getContext_summarization_failure_returns_placeholder "q" instanceOptions
      failingSummarizeCollaborators [] webFallbackResult
      rfl rfl rfl rfl rfl (by decide) rfl⟩

end LightRag
